import Mathlib

/-!
Verification of the Retell voice bridge plugin.

Shallow embedding of the plugin sources:
- caller authorization (config.ts: normalizePhone, isAllowedCaller),
- the per-call protocol state machine (websocket-server handleMessage),
- the gateway chat client correlation logic (gateway-client.ts),
- backend model resolution (generateAgentResponse).

JavaScript strings are modelled by Lean String, absent/undefined JSON fields
by Option, and the JS falsy-or operator on strings by jsOr below.
-/

/-- Characters kept by the replace regex in normalizePhone: digits and the
plus sign, at any position (config.ts line 28). -/
def keepChar (c : Char) : Bool := c.isDigit || c == '+'

/-- First-character test modelling the JS startsWith calls of normalizePhone,
whose needle is always a single character. -/
def startsWithChar (s : String) (c : Char) : Bool := s.data.head? == some c

/-- Branching part of normalizePhone applied after the character strip
(config.ts lines 30-38): prefix a plus, or a plus-one, on bare US-looking
digit strings. -/
def normBranch (normalized : String) : String :=
  if startsWithChar normalized '+' = false ∧ 10 ≤ normalized.length then
    if normalized.length = 10 then "+1" ++ normalized
    else if normalized.length = 11 ∧ startsWithChar normalized '1' = true then "+" ++ normalized
    else normalized
  else normalized

/-- Translation of normalizePhone (config.ts lines 26-41): strip every
character other than digits and plus signs, then apply the US-prefix
heuristic. -/
def normalizePhone (phone : String) : String :=
  normBranch ⟨phone.data.filter keepChar⟩

/-- Translation of isAllowedCaller (config.ts lines 46-55): an empty
allowlist admits everyone, otherwise some entry must normalize to the same
string as the caller number. -/
def isAllowedCaller (phone : String) (allowList : List String) : Bool :=
  if allowList.length = 0 then true
  else allowList.any fun allowed => normalizePhone phone == normalizePhone allowed

/-- Spec-side stripping for claim C3, following the spec words: strip all
characters except digits and a LEADING plus (a plus anywhere else is
dropped). Used only to compare against the code translation. -/
def specStripPhone (s : String) : String :=
  match s.data with
  | '+' :: rest => ⟨'+' :: rest.filter Char.isDigit⟩
  | l => ⟨l.filter Char.isDigit⟩

/-- Plus-containment test used by the spec-side normalization for claim C3
(the spec conditions read: if the result has no plus). -/
def specHasPlus (s : String) : Bool := s.data.contains '+'

/-- Spec-side normalization for claim C3, following the spec words exactly:
leading-plus-only stripping, then the two prefix rules guarded by the
absence of any plus. Compared against normalizePhone. -/
def specNormalizePhone (p : String) : String :=
  let r := specStripPhone p
  if specHasPlus r = false ∧ r.length = 10 then "+1" ++ r
  else if specHasPlus r = false ∧ r.length = 11 ∧ startsWithChar r '1' = true then "+" ++ r
  else r

/-- Amended spec-side branching for claim C3: after the strip, the prefix
rules are guarded by the string not STARTING with a plus (rather than
containing none), with no separate length-at-least-ten guard. -/
def amendedBranch (r : String) : String :=
  if startsWithChar r '+' = false ∧ r.length = 10 then "+1" ++ r
  else if startsWithChar r '+' = false ∧ r.length = 11 ∧ startsWithChar r '1' = true then "+" ++ r
  else r

/-- Amended spec-side normalization for claim C3: the strip keeps plus signs
at any position, then the amended prefix rules apply. -/
def amendedNormalizePhone (p : String) : String :=
  amendedBranch ⟨p.data.filter keepChar⟩

/-- JS falsy-or on an optional string: undefined and the empty string both
fall back to the default, anything else passes through. -/
def jsOr (v : Option String) (dflt : String) : String :=
  match v with
  | none => dflt
  | some s => if s = "" then dflt else s

/-- JS truthiness of an optional string: false for undefined and for the
empty string. -/
def jsTruthy (o : Option String) : Bool :=
  match o with
  | none => false
  | some s => if s = "" then false else true

/-- Pattern-at-the-front test for the substring scan: the first list occurs
at the start of the second. -/
def headMatches : List Char → List Char → Bool
  | [], _ => true
  | _ :: _, [] => false
  | p :: ps, c :: cs => p == c && headMatches ps cs

/-- Substring occurrence test on character lists. -/
def occursIn (pat : List Char) : List Char → Bool
  | [] => headMatches pat []
  | c :: cs => headMatches pat (c :: cs) || occursIn pat cs

/-- Model of the JS String.includes call: pat occurs somewhere in s. -/
def includesStr (s pat : String) : Bool := occursIn pat.data s.data

/-- Call metadata carried by a call_details event (fields consumed by the
server: call.direction, call.from_number, call.to_number). -/
structure CallInfo where
  direction : Option String
  from_number : Option String
  to_number : Option String
deriving DecidableEq

/-- Entry of the transcript array carried by a response_required or
reminder_required event; role and content may be absent in the JSON. -/
structure TranscriptEntry where
  role : Option String
  content : Option String
deriving DecidableEq

/-- Entry of the per-session transcript window (websocket-server CallSession:
role is the string user or agent, content a string). -/
structure SessionTurn where
  role : String
  content : String
deriving DecidableEq

/-- Translation of the CallSession interface (websocket-server lines
142-148). -/
structure CallSession where
  callId : String
  fromNumber : Option String
  authorized : Bool
  transcript : List SessionTurn
  sessionKey : String
deriving DecidableEq

/-- Websocket sub-config of RetellVoiceConfig. -/
structure WebsocketConfig where
  port : Nat
  path : String
deriving DecidableEq

/-- Tailscale sub-config of RetellVoiceConfig (mode is one of off, serve,
funnel). -/
structure TailscaleConfig where
  mode : String
  path : Option String
deriving DecidableEq

/-- Translation of RetellVoiceConfig (config.ts lines 5-20). -/
structure RetellVoiceConfig where
  enabled : Bool
  apiKey : Option String
  allowFrom : List String
  greeting : String
  websocket : WebsocketConfig
  tailscale : TailscaleConfig
  responseModel : Option String
  responseTimeoutMs : Nat
deriving DecidableEq

/-- Inbound protocol events, keyed by interaction_type; other covers every
frame kind the server ignores. -/
inductive InboundEvent
  | callDetails (call : Option CallInfo)
  | pingPong (timestamp : Option Nat)
  | responseRequired (response_id : Nat) (transcript : List TranscriptEntry)
  | reminderRequired (response_id : Nat) (transcript : List TranscriptEntry)
  | other
deriving DecidableEq

/-- Outbound protocol frames the message handler can send. -/
inductive OutboundMessage
  | response (response_id : Nat) (content : String) (content_complete : Bool) (end_call : Bool)
  | pingPong (timestamp : Option Nat)
deriving DecidableEq

/-- Outcome of one generateAgentResponse invocation: the returned reply text,
or a thrown error. -/
inductive AgentOutcome
  | success (text : String)
  | failure
deriving DecidableEq

/-- Observable effect of processing one inbound event: the updated session,
the frames sent over the websocket, the numbers submitted to isAllowedCaller,
and the user messages for which generateAgentResponse was invoked. -/
structure StepResult where
  session : CallSession
  sent : List OutboundMessage
  authChecks : List String
  backendCalls : List String
deriving DecidableEq

/-- Session created on connection open (websocket-server lines 246-252). -/
def mkSession (callId : String) : CallSession :=
  { callId := callId
    fromNumber := none
    authorized := false
    transcript := []
    sessionKey := "retell:" ++ callId }

/-- Number extracted from a call_details event (websocket-server lines
285-291): the dialed number for outbound calls, the caller number otherwise;
a missing call object behaves as an empty one, a missing direction as
inbound. -/
def extractedNumber (call : Option CallInfo) : Option String :=
  let c := call.getD { direction := none, from_number := none, to_number := none }
  if jsOr c.direction "inbound" = "outbound" then c.to_number else c.from_number

/-- Translation of the call_details branch of handleMessage
(websocket-server lines 284-324). -/
def handleCallDetails (cfg : RetellVoiceConfig) (s : CallSession)
    (call : Option CallInfo) : StepResult :=
  if isAllowedCaller (jsOr (extractedNumber call) "") cfg.allowFrom = false then
    { session := s
      sent := [.response 0 "Sorry, this number is not authorized. Goodbye." true true]
      authChecks := [jsOr (extractedNumber call) ""]
      backendCalls := [] }
  else
    { session := { s with
        fromNumber := extractedNumber call
        sessionKey := "retell:" ++ normalizePhone (jsOr (extractedNumber call) s.callId)
        authorized := true }
      sent := [.response 0 cfg.greeting true false]
      authChecks := [jsOr (extractedNumber call) ""]
      backendCalls := [] }

/-- Last user-authored content of an event transcript (websocket-server
lines 348-352): filter to user entries, take the last, require truthy
content. -/
def lastUserContent (ts : List TranscriptEntry) : Option String :=
  match (ts.filter fun t => t.role == some "user").getLast? with
  | none => none
  | some t => if jsTruthy t.content = true then some (t.content.getD "") else none

/-- Session transcript update (websocket-server lines 364-367): last ten
entries of the event transcript, each tagged agent or user. -/
def sessionTranscript (ts : List TranscriptEntry) : List SessionTurn :=
  (ts.drop (ts.length - 10)).map fun t =>
    { role := if t.role == some "agent" then "agent" else "user"
      content := t.content.getD "" }

/-- Farewell-phrase scan deciding the end_call flag (websocket-server lines
377-381); lowercasing is modelled per character as JS toLowerCase. -/
def shouldEndCall (response : String) : Bool :=
  includesStr ⟨response.data.map Char.toLower⟩ "goodbye" ||
  includesStr ⟨response.data.map Char.toLower⟩ "talk to you later" ||
  includesStr ⟨response.data.map Char.toLower⟩ "bye for now" ||
  includesStr ⟨response.data.map Char.toLower⟩ "have a good"

/-- Translation of the response_required and reminder_required branch of
handleMessage (websocket-server lines 336-399). -/
def handleResponseRequired (cfg : RetellVoiceConfig) (s : CallSession) (rid : Nat)
    (ts : List TranscriptEntry) (agent : AgentOutcome) : StepResult :=
  if s.authorized = false ∧ 0 < cfg.allowFrom.length then
    { session := s
      sent := [.response rid "One moment please..." true false]
      authChecks := []
      backendCalls := [] }
  else
    match lastUserContent ts with
    | none =>
      { session := s
        sent := [.response rid "I\x27m here! What can I help you with?" true false]
        authChecks := []
        backendCalls := [] }
    | some msg =>
      match agent with
      | .success r =>
        { session := { s with transcript := sessionTranscript ts }
          sent := [.response rid r true (shouldEndCall r)]
          authChecks := []
          backendCalls := [msg] }
      | .failure =>
        { session := { s with transcript := sessionTranscript ts }
          sent := [.response rid "Sorry, I had a brief hiccup. Can you say that again?" true false]
          authChecks := []
          backendCalls := [msg] }

/-- Translation of handleMessage (websocket-server lines 276-405): dispatch
one parsed inbound event against the session. -/
def handleMessage (cfg : RetellVoiceConfig) (s : CallSession) (ev : InboundEvent)
    (agent : AgentOutcome) : StepResult :=
  match ev with
  | .callDetails call => handleCallDetails cfg s call
  | .pingPong t =>
    { session := s, sent := [.pingPong t], authChecks := [], backendCalls := [] }
  | .responseRequired rid t => handleResponseRequired cfg s rid t agent
  | .reminderRequired rid t => handleResponseRequired cfg s rid t agent
  | .other =>
    { session := s, sent := [], authChecks := [], backendCalls := [] }

/-- JS falsy-or on a plain string: the empty string falls back to the
default. -/
def jsOrS (s dflt : String) : String := if s = "" then dflt else s

/-- Translation of the ChatResponse interface (gateway-client.ts lines
17-21); the optional error and aborted flags default to false. -/
structure ChatResponse where
  text : String
  error : Bool := false
  aborted : Bool := false
deriving DecidableEq

/-- Settlement of the chat promise: the resolve path or the reject path. -/
inductive ChatOutcome
  | resolved (r : ChatResponse)
  | rejected (message : String)
deriving DecidableEq

/-- Lookup in the pendingChats map (JS Map.get / Map.has), modelled as an
association list from runId to the accumulated chunks. -/
def getRun : List (String × List String) → String → Option (List String)
  | [], _ => none
  | (k, v) :: rest, id => if k = id then some v else getRun rest id

/-- Deletion from the pendingChats map (JS Map.delete). -/
def deleteRun : List (String × List String) → String → List (String × List String)
  | [], _ => []
  | (k, v) :: rest, id => if k = id then deleteRun rest id else (k, v) :: deleteRun rest id

/-- Insertion into the pendingChats map (JS Map.set). -/
def setRun : List (String × List String) → String → List String → List (String × List String)
  | [], id, v => [(id, v)]
  | (k, w) :: rest, id, v =>
    if k = id then (k, v) :: rest else (k, w) :: setRun rest id v

/-- Fixed fallback text resolved on a chat timeout (gateway-client.ts line
313). -/
def timedOutText : String := "Sorry, I took too long. Can you try again?"

/-- Registration of a fresh pending chat entry when GatewayClient.chat starts
waiting on a run (gateway-client.ts lines 318-323): empty chunk buffer. -/
def chatRegister (pending : List (String × List String)) (runId : String) :
    List (String × List String) :=
  setRun pending runId []

/-- Timeout callback of GatewayClient.chat (gateway-client.ts lines 310-316):
the pending entry for the run is deleted first, then the promise is RESOLVED
(never rejected) with the fixed timeout text and the aborted flag. -/
def chatTimeout (pending : List (String × List String)) (runId : String) :
    List (String × List String) × ChatOutcome :=
  (deleteRun pending runId, .resolved { text := timedOutText, aborted := true })

/-- Payload of a gateway agent event (gateway-client.ts lines 148-162):
runId, stream name, assistant snapshot text, lifecycle phase; each may be
absent. -/
structure AgentEventPayload where
  runId : Option String
  stream : Option String
  dataText : Option String
  phase : Option String
deriving DecidableEq

/-- Translation of the agent-event branch of GatewayClient.handleMessage
(gateway-client.ts lines 148-191): update the chunk snapshot on assistant
stream events, and on a terminal lifecycle phase delete the entry and
resolve; returns the updated map and the settlement, if any. -/
def gatewayHandleAgentEvent (pending : List (String × List String))
    (p : AgentEventPayload) : List (String × List String) × Option ChatOutcome :=
  if jsTruthy p.runId = false then (pending, none)
  else
    match getRun pending (p.runId.getD "") with
    | none => (pending, none)
    | some chunks =>
      let chunks' :=
        if p.stream = some "assistant" ∧ jsTruthy p.dataText = true
        then [p.dataText.getD ""] else chunks
      if p.stream = some "lifecycle" ∧ jsTruthy p.phase = true then
        if p.phase.getD "" = "end" ∨ p.phase.getD "" = "done" ∨
            p.phase.getD "" = "error" ∨ p.phase.getD "" = "aborted" then
          (deleteRun pending (p.runId.getD ""),
            some (.resolved
              (if p.phase.getD "" = "error" then
                { text := jsOrS (String.join chunks').trim "Sorry, something went wrong."
                  error := true }
              else if p.phase.getD "" = "aborted" then
                { text := jsOrS (String.join chunks').trim "Response was interrupted."
                  aborted := true }
              else
                { text := (String.join chunks').trim })))
        else (setRun pending (p.runId.getD "") chunks', none)
      else (setRun pending (p.runId.getD "") chunks', none)

/-- Backend model resolution of generateAgentResponse (embedded-agent server
variant, lines 305-309): split the configured override at the FIRST slash;
with no slash the default provider is kept and the raw override string
becomes the model. -/
def splitFirstSlash : List Char → Option (List Char × List Char)
  | [] => none
  | c :: rest =>
    if c = '/' then some ([], rest)
    else
      match splitFirstSlash rest with
      | none => none
      | some (b, a) => some (c :: b, a)

/-- Translation of the modelRef, provider and model computation
(embedded-agent server variant, lines 305-309). -/
def resolveModel (defaultProvider defaultModel : String)
    (responseModel : Option String) : String × String :=
  match splitFirstSlash (jsOr responseModel (defaultProvider ++ "/" ++ defaultModel)).data with
  | none => (defaultProvider, jsOr responseModel (defaultProvider ++ "/" ++ defaultModel))
  | some (b, a) => (⟨b⟩, ⟨a⟩)

/-- Concrete configuration instance used by witness theorems: a one-entry
allowlist. -/
def sampleConfig : RetellVoiceConfig :=
  { enabled := true
    apiKey := none
    allowFrom := ["+15551234567"]
    greeting := "Hey! What is up?"
    websocket := { port := 8765, path := "/llm-websocket" }
    tailscale := { mode := "off", path := none }
    responseModel := none
    responseTimeoutMs := 30000 }

-- Sanity checks on the authorization model (kept as compiled examples).
example : normalizePhone "5551234567" = "+15551234567" := by decide
example : normalizePhone "+15551234567" = "+15551234567" := by decide
example : normalizePhone "1 (555) 123-4567" = "+15551234567" := by decide
example : isAllowedCaller "+15551234567" ["5551234567"] = true := by decide
example : normalizePhone "5+551234567" = "5+551234567" := by decide
example : specNormalizePhone "5+551234567" = "+15551234567" := by decide

/-- Helper: stripping the phone characters is idempotent. -/
theorem filter_keepChar_idem (l : List Char) :
    (l.filter keepChar).filter keepChar = l.filter keepChar :=
  List.filter_eq_self.mpr fun _ ha => List.of_mem_filter ha

/-- Helper: a string that starts with a plus passes normBranch unchanged. -/
theorem normBranch_plus (s : String) (h : startsWithChar s '+' = true) :
    normBranch s = s := by
  unfold normBranch
  simp [h]

/-- Helper: normBranch either returns its input unchanged or produces a
string that starts with a plus. -/
theorem normBranch_cases (s : String) :
    normBranch s = s ∨ startsWithChar (normBranch s) '+' = true := by
  unfold normBranch
  split_ifs with h1 h2 h3
  · right; rfl
  · right; rfl
  · left; rfl
  · left; rfl

/-- Helper: on an already-stripped string, the output of normBranch is also
stripped (every character of it is a digit or a plus). -/
theorem normBranch_filter_fixed (l : List Char) (hl : l.filter keepChar = l) :
    (normBranch ⟨l⟩).data.filter keepChar = (normBranch ⟨l⟩).data := by
  unfold normBranch
  split_ifs
  · show (('+' :: '1' :: l).filter keepChar) = '+' :: '1' :: l
    simp [keepChar, hl]
  · show (('+' :: l).filter keepChar) = '+' :: l
    simp [keepChar, hl]
  · exact hl
  · exact hl

/-- Claim C8: normalizePhone is idempotent: applying it twice gives the same
result as applying it once, for every input string. -/
theorem normalizePhone_idem (x : String) :
    normalizePhone (normalizePhone x) = normalizePhone x := by
  have hfix : (x.data.filter keepChar).filter keepChar = x.data.filter keepChar :=
    filter_keepChar_idem x.data
  rcases normBranch_cases ⟨x.data.filter keepChar⟩ with h | h
  · show normBranch ⟨(normBranch ⟨x.data.filter keepChar⟩).data.filter keepChar⟩
        = normBranch ⟨x.data.filter keepChar⟩
    rw [h]
    show normBranch ⟨(x.data.filter keepChar).filter keepChar⟩ = ⟨x.data.filter keepChar⟩
    rw [hfix]
    exact h
  · show normBranch ⟨(normBranch ⟨x.data.filter keepChar⟩).data.filter keepChar⟩
        = normBranch ⟨x.data.filter keepChar⟩
    rw [normBranch_filter_fixed (x.data.filter keepChar) hfix]
    exact normBranch_plus _ h

/-- Claim C1: isAllowedCaller admits everyone on an empty allowlist, and on a
non-empty allowlist admits exactly the numbers whose normalization equals the
normalization of some entry; in particular the cross-format example matches. -/
theorem isAllowedCaller_correct (p : String) (L : List String) :
    (L = [] → isAllowedCaller p L = true) ∧
    (L ≠ [] → (isAllowedCaller p L = true ↔ ∃ e ∈ L, normalizePhone p = normalizePhone e)) ∧
    (∀ x : String, isAllowedCaller x [] = true) ∧
    isAllowedCaller "+15551234567" ["5551234567"] = true := by
  refine ⟨?_, ?_, fun _ => rfl, by decide⟩
  · rintro rfl; rfl
  · intro hL
    have hlen : ¬ L.length = 0 := by simpa [List.length_eq_zero] using hL
    simp [isAllowedCaller, hlen, List.any_eq_true]

/-- Witness for claim C1 at concrete inputs. -/
theorem isAllowedCaller_correct_witness :
    isAllowedCaller "+15551234567" ["5551234567"] = true ∧
    (isAllowedCaller "555" ["666"] = true ↔
      ∃ e ∈ ["666"], normalizePhone "555" = normalizePhone e) :=
  ⟨(isAllowedCaller_correct "+15551234567" ["5551234567"]).2.2.2,
   (isAllowedCaller_correct "555" ["666"]).2.1 (List.cons_ne_nil _ _)⟩

/-- Claim C3 counterexample: on an input with a non-leading plus sign, the
code normalizePhone differs from the spec-worded procedure that strips every
character except digits and a leading plus. -/
theorem normalizePhone_spec_counterexample :
    ¬ normalizePhone "5+551234567" = specNormalizePhone "5+551234567" := by
  decide

/-- Helper: on every string, the post-strip branching of the code agrees with
the amended branching of claim C3. -/
theorem normBranch_eq_amendedBranch (r : String) : normBranch r = amendedBranch r := by
  unfold normBranch amendedBranch
  by_cases hplus : startsWithChar r '+' = false
  · by_cases h10 : r.length = 10
    · rw [if_pos ⟨hplus, by omega⟩, if_pos h10, if_pos ⟨hplus, h10⟩]
    · by_cases h11 : r.length = 11 ∧ startsWithChar r '1' = true
      · obtain ⟨h11a, h11b⟩ := h11
        rw [if_pos ⟨hplus, by omega⟩, if_neg h10, if_pos ⟨h11a, h11b⟩,
            if_neg (fun hc => h10 hc.2), if_pos ⟨hplus, h11a, h11b⟩]
      · by_cases hge : 10 ≤ r.length
        · rw [if_pos ⟨hplus, hge⟩, if_neg h10, if_neg h11,
              if_neg (fun hc => h10 hc.2), if_neg (fun hc => h11 ⟨hc.2.1, hc.2.2⟩)]
        · rw [if_neg (fun hc => hge hc.2), if_neg (fun hc => h10 hc.2),
              if_neg (fun hc => h11 ⟨hc.2.1, hc.2.2⟩)]
  · rw [if_neg (fun hc => hplus hc.1), if_neg (fun hc => hplus hc.1),
        if_neg (fun hc => hplus hc.1)]

/-- Claim C3 amended: normalizePhone strips every character except digits and
plus signs at ANY position; then, when the stripped result does not START
with a plus: length 10 gets a plus-one prefix, length 11 starting with 1
gets a plus prefix; anything else is returned unchanged. -/
theorem normalizePhone_amended_eq (p : String) :
    normalizePhone p = amendedNormalizePhone p :=
  normBranch_eq_amendedBranch ⟨p.data.filter keepChar⟩

/-- Helper: headMatches decides prefix occurrence. -/
theorem headMatches_iff (p : List Char) : ∀ l : List Char,
    headMatches p l = true ↔ ∃ t, l = p ++ t := by
  induction p with
  | nil => intro l; simp [headMatches]
  | cons a ps ih =>
    intro l
    cases l with
    | nil => simp [headMatches]
    | cons c cs =>
      simp only [headMatches, Bool.and_eq_true, beq_iff_eq, ih, List.cons_append,
        List.cons.injEq]
      constructor
      · rintro ⟨rfl, t, rfl⟩
        exact ⟨t, rfl, rfl⟩
      · rintro ⟨t, rfl, rfl⟩
        exact ⟨rfl, t, rfl⟩

/-- Helper: occursIn decides substring occurrence. -/
theorem occursIn_iff (p : List Char) : ∀ l : List Char,
    occursIn p l = true ↔ ∃ a b, l = a ++ p ++ b := by
  intro l
  induction l with
  | nil =>
    simp only [occursIn, headMatches_iff]
    constructor
    · rintro ⟨t, ht⟩
      exact ⟨[], t, by simpa using ht⟩
    · rintro ⟨a, b, hab⟩
      rcases List.append_eq_nil.mp hab.symm with ⟨ha, hb⟩
      rcases List.append_eq_nil.mp ha with ⟨ha2, hp⟩
      exact ⟨[], by simp [hp]⟩
  | cons c cs ih =>
    simp only [occursIn, Bool.or_eq_true, headMatches_iff, ih]
    constructor
    · rintro (⟨t, h⟩ | ⟨a, b, h⟩)
      · exact ⟨[], t, by simpa using h⟩
      · exact ⟨c :: a, b, by simp [h]⟩
    · rintro ⟨a, b, h⟩
      cases a with
      | nil => exact Or.inl ⟨b, by simpa using h⟩
      | cons x xs =>
        refine Or.inr ?_
        injection h with h1 h2
        exact ⟨xs, b, h2⟩

/-- Helper: the authorization check of a call_details event always receives
the extracted number, whatever the verdict. -/
theorem handleCallDetails_authChecks (cfg : RetellVoiceConfig) (s : CallSession)
    (call : Option CallInfo) :
    (handleCallDetails cfg s call).authChecks = [jsOr (extractedNumber call) ""] := by
  unfold handleCallDetails
  split <;> rfl

/-- Claim C2: a call_details event submits the dialed number to the
authorization check when direction is outbound, and the caller number when
direction is inbound or absent. -/
theorem callDetails_direction_number (cfg : RetellVoiceConfig) (s : CallSession)
    (agent : AgentOutcome) (f t : Option String) :
    (handleMessage cfg s (.callDetails (some
        { direction := some "outbound", from_number := f, to_number := t }))
        agent).authChecks = [jsOr t ""] ∧
    (handleMessage cfg s (.callDetails (some
        { direction := some "inbound", from_number := f, to_number := t }))
        agent).authChecks = [jsOr f ""] ∧
    (handleMessage cfg s (.callDetails (some
        { direction := none, from_number := f, to_number := t }))
        agent).authChecks = [jsOr f ""] := by
  refine ⟨?_, ?_, ?_⟩ <;>
    simp [handleMessage, handleCallDetails_authChecks, extractedNumber, jsOr]

/-- Claim C5: a turn-producing event arriving while the session is not yet
authorized and the allowlist is non-empty yields exactly one holding frame
and no backend invocation, for both turn event kinds. -/
theorem preAuth_holding (cfg : RetellVoiceConfig) (s : CallSession) (rid : Nat)
    (ts : List TranscriptEntry) (agent : AgentOutcome)
    (hauth : s.authorized = false) (hne : cfg.allowFrom ≠ []) :
    handleMessage cfg s (.responseRequired rid ts) agent =
      { session := s
        sent := [.response rid "One moment please..." true false]
        authChecks := []
        backendCalls := [] } ∧
    handleMessage cfg s (.reminderRequired rid ts) agent =
      { session := s
        sent := [.response rid "One moment please..." true false]
        authChecks := []
        backendCalls := [] } := by
  have hlen : 0 < cfg.allowFrom.length := List.length_pos.mpr hne
  constructor <;>
    · show handleResponseRequired cfg s rid ts agent = _
      unfold handleResponseRequired
      rw [if_pos ⟨hauth, hlen⟩]

/-- Witness for claim C5 at concrete inputs. -/
theorem preAuth_holding_witness :
    handleMessage sampleConfig (mkSession "c1") (.responseRequired 3 []) .failure =
      { session := mkSession "c1"
        sent := [.response 3 "One moment please..." true false]
        authChecks := []
        backendCalls := [] } :=
  (preAuth_holding sampleConfig (mkSession "c1") 3 [] .failure rfl
    (List.cons_ne_nil _ _)).1

/-- Claim C6: the reply of a successful backend turn is emitted with the
end_call flag set exactly when the lowercased reply contains one of the four
farewell phrases; the two concrete example replies behave as specified. -/
theorem endCall_inference (cfg : RetellVoiceConfig) (s : CallSession) (rid : Nat)
    (ts : List TranscriptEntry) (m r : String)
    (hgate : ¬ (s.authorized = false ∧ 0 < cfg.allowFrom.length))
    (hmsg : lastUserContent ts = some m) :
    (handleMessage cfg s (.responseRequired rid ts) (.success r)).sent
        = [.response rid r true (shouldEndCall r)] ∧
    (handleMessage cfg s (.reminderRequired rid ts) (.success r)).sent
        = [.response rid r true (shouldEndCall r)] ∧
    (shouldEndCall r = true ↔
      (∃ a b, r.data.map Char.toLower = a ++ "goodbye".data ++ b) ∨
      (∃ a b, r.data.map Char.toLower = a ++ "talk to you later".data ++ b) ∨
      (∃ a b, r.data.map Char.toLower = a ++ "bye for now".data ++ b) ∨
      (∃ a b, r.data.map Char.toLower = a ++ "have a good".data ++ b)) ∧
    shouldEndCall "Okay, have a good one!" = true ∧
    shouldEndCall "Sure, here\x27s the weather." = false := by
  refine ⟨?_, ?_, ?_, by decide, by decide⟩
  · show (handleResponseRequired cfg s rid ts (.success r)).sent = _
    unfold handleResponseRequired
    rw [if_neg hgate, hmsg]
  · show (handleResponseRequired cfg s rid ts (.success r)).sent = _
    unfold handleResponseRequired
    rw [if_neg hgate, hmsg]
  · unfold shouldEndCall includesStr
    simp only [Bool.or_eq_true, occursIn_iff]
    rw [or_assoc, or_assoc]

/-- Witness for claim C6 at concrete inputs. -/
theorem endCall_inference_witness :
    (handleMessage sampleConfig
        { callId := "c1", fromNumber := none, authorized := true, transcript := []
          sessionKey := "retell:c1" }
        (.responseRequired 3 [{ role := some "user", content := some "hi" }])
        (.success "ok")).sent = [.response 3 "ok" true (shouldEndCall "ok")] :=
  (endCall_inference sampleConfig
    { callId := "c1", fromNumber := none, authorized := true, transcript := []
      sessionKey := "retell:c1" }
    3 [{ role := some "user", content := some "hi" }] "hi" "ok"
    (by decide) (by decide)).1

/-- Helper: a session transcript update never stores more than ten turns. -/
theorem sessionTranscript_length (ts : List TranscriptEntry) :
    (sessionTranscript ts).length ≤ 10 := by
  unfold sessionTranscript
  rw [List.length_map, List.length_drop]
  omega

/-- Claim C7: the transcript window is empty at session creation and stays at
ten entries or fewer across the processing of any inbound event. -/
theorem transcript_bounded (cfg : RetellVoiceConfig) (s : CallSession)
    (e : InboundEvent) (agent : AgentOutcome) (cid : String)
    (h : s.transcript.length ≤ 10) :
    (mkSession cid).transcript = [] ∧
    (handleMessage cfg s e agent).session.transcript.length ≤ 10 := by
  refine ⟨rfl, ?_⟩
  cases e with
  | callDetails call =>
    show (handleCallDetails cfg s call).session.transcript.length ≤ 10
    unfold handleCallDetails
    split
    · exact h
    · simpa using h
  | pingPong t => simpa using h
  | other => simpa using h
  | responseRequired rid ts =>
    show (handleResponseRequired cfg s rid ts agent).session.transcript.length ≤ 10
    unfold handleResponseRequired
    split
    · exact h
    · split
      · exact h
      · cases agent <;> simpa using sessionTranscript_length ts
  | reminderRequired rid ts =>
    show (handleResponseRequired cfg s rid ts agent).session.transcript.length ≤ 10
    unfold handleResponseRequired
    split
    · exact h
    · split
      · exact h
      · cases agent <;> simpa using sessionTranscript_length ts

/-- Witness for claim C7 at concrete inputs. -/
theorem transcript_bounded_witness :
    (mkSession "c1").transcript = [] ∧
    (handleMessage sampleConfig (mkSession "c1") .other .failure).session.transcript.length ≤ 10 :=
  transcript_bounded sampleConfig (mkSession "c1") .other .failure "c1" (by decide)

/-- Claim C10: a call_details event whose extracted number fails the
allowlist check sends only the rejection frame with end_call set and leaves
every field of the session unchanged. -/
theorem callDetails_denied_frame (cfg : RetellVoiceConfig) (s : CallSession)
    (call : Option CallInfo) (agent : AgentOutcome)
    (hdeny : isAllowedCaller (jsOr (extractedNumber call) "") cfg.allowFrom = false) :
    handleMessage cfg s (.callDetails call) agent =
      { session := s
        sent := [.response 0 "Sorry, this number is not authorized. Goodbye." true true]
        authChecks := [jsOr (extractedNumber call) ""]
        backendCalls := [] } := by
  show handleCallDetails cfg s call = _
  unfold handleCallDetails
  rw [if_pos hdeny]

/-- Witness for claim C10 at concrete inputs. -/
theorem callDetails_denied_frame_witness :
    handleMessage sampleConfig (mkSession "abc")
      (.callDetails (some
        { direction := none, from_number := some "+15559999999", to_number := none }))
      .failure =
      { session := mkSession "abc"
        sent := [.response 0 "Sorry, this number is not authorized. Goodbye." true true]
        authChecks := ["+15559999999"]
        backendCalls := [] } :=
  callDetails_denied_frame sampleConfig (mkSession "abc")
    (some { direction := none, from_number := some "+15559999999", to_number := none })
    .failure (by decide)

/-- Helper: string append concatenates the character data. -/
theorem data_append (x y : String) : (x ++ y).data = x.data ++ y.data := rfl

/-- Helper: after deleting a run from the pending-chats map, looking the run
up misses. -/
theorem getRun_deleteRun (m : List (String × List String)) (id : String) :
    getRun (deleteRun m id) id = none := by
  induction m with
  | nil => rfl
  | cons kv rest ih =>
    obtain ⟨k, v⟩ := kv
    unfold deleteRun
    by_cases hk : k = id
    · rw [if_pos hk]; exact ih
    · rw [if_neg hk]
      unfold getRun
      rw [if_neg hk]
      exact ih

/-- Claim C4: when the chat timeout fires for a run, the promise is resolved
(not rejected) with the fixed timeout text and aborted set, the pending
entry for that run is removed, and an agent completion event arriving
afterwards for the same run settles nothing and leaves the map unchanged. -/
theorem chatTimeout_correct (pending : List (String × List String)) (runId : String) :
    (chatTimeout pending runId).2 =
      .resolved { text := "Sorry, I took too long. Can you try again?"
                  error := false, aborted := true } ∧
    getRun (chatTimeout pending runId).1 runId = none ∧
    ∀ p : AgentEventPayload, p.runId = some runId →
      gatewayHandleAgentEvent (chatTimeout pending runId).1 p =
        ((chatTimeout pending runId).1, none) := by
  refine ⟨rfl, getRun_deleteRun pending runId, ?_⟩
  intro p hp
  unfold gatewayHandleAgentEvent
  rw [hp]
  by_cases hr : runId = ""
  · subst hr
    have hc : jsTruthy (some "") = false := rfl
    rw [if_pos hc]
  · have ht : jsTruthy (some runId) = true := by simp [jsTruthy, hr]
    rw [ht, if_neg (by simp)]
    have hg : getRun (chatTimeout pending runId).1 ((some runId).getD "") = none := by
      simpa using getRun_deleteRun pending runId
    rw [hg]

/-- Witness for claim C4 at concrete inputs: a late lifecycle end event for a
timed-out run has no effect. -/
theorem chatTimeout_correct_witness :
    gatewayHandleAgentEvent (chatTimeout [("r1", ["partial"])] "r1").1
      { runId := some "r1", stream := some "lifecycle", dataText := none
        phase := some "end" } =
      ((chatTimeout [("r1", ["partial"])] "r1").1, none) :=
  (chatTimeout_correct [("r1", ["partial"])] "r1").2.2
    { runId := some "r1", stream := some "lifecycle", dataText := none
      phase := some "end" } rfl

/-- Helper: a slash-free character list has no first-slash split. -/
theorem splitFirstSlash_none (l : List Char) (h : ('/' : Char) ∉ l) :
    splitFirstSlash l = none := by
  induction l with
  | nil => rfl
  | cons c rest ih =>
    rw [List.mem_cons] at h
    push_neg at h
    unfold splitFirstSlash
    rw [if_neg (fun hc => h.1 hc.symm), ih h.2]

/-- Helper: splitting at the first slash of a list built around one slash
recovers the two halves when the front half is slash-free. -/
theorem splitFirstSlash_append (b a : List Char) (hb : ('/' : Char) ∉ b) :
    splitFirstSlash (b ++ '/' :: a) = some (b, a) := by
  induction b with
  | nil =>
    show splitFirstSlash ('/' :: a) = some ([], a)
    unfold splitFirstSlash
    rw [if_pos rfl]
  | cons c rest ih =>
    rw [List.mem_cons] at hb
    push_neg at hb
    show splitFirstSlash (c :: (rest ++ '/' :: a)) = some (c :: rest, a)
    unfold splitFirstSlash
    rw [if_neg (fun hc => hb.1 hc.symm), ih hb.2]

/-- Claim C9 counterexample: a slash-free override string does not fall back
to the default model: the raw override becomes the model. -/
theorem resolveModel_counterexample :
    ¬ resolveModel "providerx" "modely" (some "gpt5") = ("providerx", "modely") := by
  decide

/-- Claim C9 amended: an absent or empty override yields the default provider
and default model (the default provider being slash-free); a non-empty
slash-free override keeps the default provider and becomes the model itself;
an override containing a slash is split at its first slash into provider and
model. -/
theorem resolveModel_amended (dp dm s : String) (b a : List Char)
    (hdp : ('/' : Char) ∉ dp.data) (hs1 : s ≠ "") (hs2 : ('/' : Char) ∉ s.data)
    (hb : ('/' : Char) ∉ b) :
    resolveModel dp dm none = (dp, dm) ∧
    resolveModel dp dm (some "") = (dp, dm) ∧
    resolveModel dp dm (some s) = (dp, s) ∧
    resolveModel dp dm (some ⟨b ++ '/' :: a⟩) = (⟨b⟩, ⟨a⟩) := by
  have hdata : (dp ++ "/" ++ dm).data = dp.data ++ '/' :: dm.data := by
    rw [data_append, data_append, List.append_assoc]
    rfl
  refine ⟨?_, ?_, ?_, ?_⟩
  · unfold resolveModel
    have h1 : jsOr none (dp ++ "/" ++ dm) = dp ++ "/" ++ dm := rfl
    rw [h1, hdata, splitFirstSlash_append dp.data dm.data hdp]
  · unfold resolveModel
    have h1 : jsOr (some "") (dp ++ "/" ++ dm) = dp ++ "/" ++ dm := rfl
    rw [h1, hdata, splitFirstSlash_append dp.data dm.data hdp]
  · unfold resolveModel
    have h1 : jsOr (some s) (dp ++ "/" ++ dm) = s := by
      show (if s = "" then dp ++ "/" ++ dm else s) = s
      rw [if_neg hs1]
    rw [h1, splitFirstSlash_none s.data hs2]
  · unfold resolveModel
    have hne : (⟨b ++ '/' :: a⟩ : String) ≠ "" := by
      simp [String.ext_iff]
    have h1 : jsOr (some ⟨b ++ '/' :: a⟩) (dp ++ "/" ++ dm) = ⟨b ++ '/' :: a⟩ := by
      show (if (⟨b ++ '/' :: a⟩ : String) = "" then dp ++ "/" ++ dm else ⟨b ++ '/' :: a⟩)
          = ⟨b ++ '/' :: a⟩
      rw [if_neg hne]
    rw [h1]
    show (match splitFirstSlash (b ++ '/' :: a) with
      | none => (dp, (⟨b ++ '/' :: a⟩ : String))
      | some (bb, aa) => (⟨bb⟩, ⟨aa⟩)) = ((⟨b⟩ : String), (⟨a⟩ : String))
    rw [splitFirstSlash_append b a hb]

/-- Witness for claim C9 at concrete inputs. -/
theorem resolveModel_amended_witness :
    resolveModel "providerx" "modely" (some "gpt5") = ("providerx", "gpt5") :=
  (resolveModel_amended "providerx" "modely" "gpt5" "other".data "newmodel".data
    (by decide) (by decide) (by decide) (by decide)).2.2.1
